import Mathlib

/-!
Verification of the tracked-site registration core of the analytics app,
embedded from `src/internal/app/website/delivery_http.go`.

The repository ships only the HTTP delivery layer; the collaborators it
calls (`str.ParseURL`, `security.Hash`, `dur.ParseTime`, the auth and
website use cases backed by the store) are external to `src/` and are
modelled from the spec where noted.  The delivery handlers themselves
(`AddWebsite`, `GetWebsite`) are translated statement by statement.
-/

namespace Analytics

/-- HTTP status classes used by the delivery layer (`net/http` constants
appearing in `delivery_http.go`). -/
inductive HStatus where
  | ok
  | badRequest
  | unauthorized
  | conflict
  | internalError
  | notFound
  | forbidden
deriving DecidableEq, Repr

/-- A JSON response written with `c.JSON` / the gin context: a status code
and a fixed message body (dynamic `err.Error()` bodies are abstracted to a
fixed marker string). -/
structure Response where
  status : HStatus
  body : String
deriving DecidableEq, Repr

/-- `models.Website`, the persisted Tracked Site record, with the fields
set by `AddWebsite` (timestamps as abstract clock values). -/
structure Website where
  id : String
  userID : String
  name : String
  hostName : String
  url : String
  tracked : Bool
  createdAt : Nat
  updatedAt : Nat
deriving DecidableEq, Repr

/-- `RequestWebsite`, the bound JSON payload of `POST /website/add`. -/
structure RequestWebsite where
  name : String
  url : String
deriving DecidableEq, Repr

/-- `validate.Struct` on `RequestWebsite`: tag `min=2,max=100` on `Name`
and `min=3` on `URL` (validator v10 counts characters of the string). -/
def validateRequest (req : RequestWebsite) : Bool :=
  2 ≤ req.name.length && req.name.length ≤ 100 && 3 ≤ req.url.length

/-- Characters allowed inside the host component: everything up to the
first path / query / fragment delimiter. -/
def isHostChar (c : Char) : Bool :=
  !(c == '/' || c == '?' || c == '#')

/-- Drop a scheme prefix: everything up to and including the first
occurrence of the three characters `colon slash slash`; a URL with no such
occurrence is returned unchanged (no scheme present). -/
def dropSchemeAux : List Char → Option (List Char)
  | [] => none
  | c :: rest =>
      if c = ':' ∧ rest.take 2 = ['/', '/'] then some (rest.drop 2)
      else dropSchemeAux rest

/-- Scheme stripping on the full character list. -/
def dropScheme (l : List Char) : List Char :=
  (dropSchemeAux l).getD l

/-- The host component: the characters before the first `/`, `?` or `#`
after the scheme, case-folded. -/
def canonHostChars (l : List Char) : List Char :=
  ((dropScheme l).takeWhile isHostChar).map Char.toLower

/-- Modelled from the spec: `str.ParseURL` (package
`internal/pkg/string`, not under `src/`).  Spec section 4.2 step 1: parse
`raw_url` as a URL, extract only the host component, case-fold it, strip
scheme, path, query and any trailing separator; fail if `raw_url` has no
parseable host. -/
def ParseURL (rawURL : String) : Option String :=
  let h := canonHostChars rawURL.data
  if h.isEmpty then none else some (String.mk h)

/-- Modelled from the spec: `security.Hash` (package
`internal/pkg/security`, not under `src/`).  Spec section 4.2 step 2: a
deterministic, collision-resistant digest of the canonical host;
idealized here as an injective tagged encoding, which makes collision
resistance exact rather than probabilistic. -/
def Hash (host : String) : String :=
  String.mk ('s' :: 'h' :: 'a' :: ':' :: host.data)

/-- `time.Now().Format(layout)`: the clock value rendered to a string.
The concrete layout is irrelevant to the claims; an injective rendering
stands in for it. -/
def formatTime (now : Nat) : String :=
  toString now

/-- `websiteUseCase.FindWebsite(userID, hostName)`.  Modelled from the
spec: the use case and store are not under `src/`; spec section 6 gives
`findByOwnerAndHost(owner, canonical_host)`, and the delivery code
consumes a count keyed on `(owner, canonical_host)`. -/
def FindWebsite (store : List Website) (userID hostName : String) : Nat :=
  (store.filter (fun w => w.userID == userID && w.hostName == hostName)).length

/-- `websiteUseCase.InsertWebsite(userID, website)`.  Modelled from the
spec: persist the constructed record (spec section 4.2 step 3, "persist
it"); the store is append-only in this core. -/
def InsertWebsite (store : List Website) (_userID : String) (w : Website) : List Website :=
  store ++ [w]

/-- External collaborators of the delivery layer, injected as an
environment: token extraction, session lookup, storage fault flags, the
clock, and the `dur.ParseTime` string round-trip.  All are outside
`src/`; the fallible shapes follow the spec (sections 4.1, 6 and 9). -/
structure Env where
  /-- `security.ExtractAccessTokenMetadata`: `some accessUUID` on success,
  `none` when the credential is malformed or absent. -/
  tokenAuth : Option String
  /-- `authUsecase.GetAuth accessUUID`: `some userID` when a live session
  matches, `none` otherwise. -/
  getAuth : String → Option String
  /-- `websiteUseCase.FindWebsite` returns a storage error. -/
  findFails : Bool
  /-- `websiteUseCase.InsertWebsite` returns a storage error. -/
  insertFails : Bool
  /-- `time.Now()` as an abstract clock value. -/
  now : Nat
  /-- Modelled from the spec: `dur.ParseTime` (package
  `internal/pkg/duration`, not under `src/`); spec section 9 records that
  the format-then-parse round trip is fallible. -/
  parseTime : String → Option Nat

/-- The record literal built at lines 167-176 of `delivery_http.go`: the
single `createdAt` value is used for both timestamp fields. -/
def mkWebsite (userID name hostName url : String) (createdAt : Nat) : Website :=
  { id := Hash hostName
    userID := userID
    name := name
    hostName := hostName
    url := url
    tracked := false
    createdAt := createdAt
    updatedAt := createdAt }

/-- `AddWebsite` (`delivery_http.go` lines 113-186), translated branch by
branch: bind/validate, parse URL, extract token, resolve session, count
existing registrations, build the record with one captured timestamp,
insert.  The result is the response written to the caller (`none` when
the handler returns without writing one, lines 161-165) together with the
resulting store. -/
def AddWebsite (env : Env) (req : RequestWebsite) (store : List Website) :
    Option Response × List Website :=
  if !validateRequest req then
    (some ⟨.badRequest, "validation error"⟩, store)
  else
    match ParseURL req.url with
    | none => (some ⟨.internalError, "error occured while parse url the website"⟩, store)
    | some hostName =>
      match env.tokenAuth with
      | none => (some ⟨.unauthorized, "extract token metadata failed"⟩, store)
      | some accessUUID =>
        match env.getAuth accessUUID with
        | none => (some ⟨.unauthorized, "get token auth failed"⟩, store)
        | some userID =>
          if env.findFails then
            (some ⟨.internalError, "error occured while check for the email"⟩, store)
          else if FindWebsite store userID hostName > 0 then
            (some ⟨.conflict, "this website already exists"⟩, store)
          else
            match env.parseTime (formatTime env.now) with
            | none => (none, store)
            | some createdAt =>
              let website := mkWebsite userID req.name hostName req.url createdAt
              if env.insertFails then
                (some ⟨.internalError, "error occured while insert website"⟩, store)
              else
                (some ⟨.ok, "website"⟩, InsertWebsite store userID website)

/-- `websiteUseCase.GetWebsite(userID, websiteID, &website)`.  Modelled
from the spec: the use case is not under `src/`; spec section 4.3 scopes
the read to the requesting owner, so an id owned by someone else resolves
the same way as a missing id. -/
def GetWebsiteUC (store : List Website) (userID websiteID : String) : Option Website :=
  store.find? (fun w => w.userID == userID && w.id == websiteID)

/-- `GetWebsite` (`delivery_http.go` lines 67-89): extract token, resolve
session, owner-scoped lookup; any lookup failure is written as a 500
internal error. -/
def GetWebsite (env : Env) (store : List Website) (websiteID : String) : Response :=
  match env.tokenAuth with
  | none => ⟨.unauthorized, "extract token metadata failed"⟩
  | some accessUUID =>
    match env.getAuth accessUUID with
    | none => ⟨.unauthorized, "get token auth failed"⟩
    | some userID =>
      match GetWebsiteUC store userID websiteID with
      | none => ⟨.internalError, "error occured while get the website by id"⟩
      | some _ => ⟨.ok, "website"⟩

/-- One registration attempt reduced to its two store interactions
(`delivery_http.go` lines 144-182): first the `FindWebsite` count, then —
in a separate step — either the conflict response or the insert.  The
delivery code runs these as two independent store calls with no
transactional guard, so two in-flight requests may interleave between
them. -/
structure RegThread where
  userID : String
  name : String
  hostName : String
  url : String
  createdAt : Nat

/-- Progress of one in-flight registration: before the dedup lookup,
between lookup and insert (carrying the count it read), or finished with
a response status. -/
inductive Phase where
  | atFind
  | atInsert (count : Nat)
  | finished (status : HStatus)
deriving DecidableEq, Repr

/-- One atomic store interaction of a registration thread, exactly the
check-then-insert sequence of `AddWebsite` (find at line 144, the
`count > 0` conflict at lines 150-152, the insert at line 178). -/
def regStep (t : RegThread) : Phase → List Website → Phase × List Website
  | .atFind, store => (.atInsert (FindWebsite store t.userID t.hostName), store)
  | .atInsert c, store =>
      if c > 0 then (.finished .conflict, store)
      else (.finished .ok,
            InsertWebsite store t.userID (mkWebsite t.userID t.name t.hostName t.url t.createdAt))
  | .finished s, store => (.finished s, store)

/-- Run two registration threads under a schedule (`true` steps the
first thread, `false` the second), sharing the store. -/
def runSchedule (t1 t2 : RegThread) :
    List Bool → Phase → Phase → List Website → Phase × Phase × List Website
  | [], p1, p2, store => (p1, p2, store)
  | true :: rest, p1, p2, store =>
      let s := regStep t1 p1 store
      runSchedule t1 t2 rest s.1 p2 s.2
  | false :: rest, p1, p2, store =>
      let s := regStep t2 p2 store
      runSchedule t1 t2 rest p1 s.1 s.2

/-- Assemble a URL from scheme, host and path/query characters, for
stating canonicalization properties. -/
def mkURL (scheme host path : List Char) : String :=
  String.mk (scheme ++ ':' :: '/' :: '/' :: (host ++ path))

/-- A fully healthy environment: a valid credential resolving to owner
`u1`, no storage faults, a clock value whose format/parse round trip
succeeds. -/
def sampleEnv : Env :=
  { tokenAuth := some "access-uuid"
    getAuth := fun _ => some "u1"
    findFails := false
    insertFails := false
    now := 5
    parseTime := fun _ => some 5 }

/-- An environment authenticated as `ownerA`. -/
def envOwnerA : Env :=
  { tokenAuth := some "tokA"
    getAuth := fun _ => some "ownerA"
    findFails := false
    insertFails := false
    now := 5
    parseTime := fun _ => some 5 }

/-- A record registered by `ownerB`. -/
def siteOwnerB : Website :=
  mkWebsite "ownerB" "B Site" "example.com" "https://example.com" 5

/-- The store after `u1` successfully registers `https://Example.com/path?x=1`. -/
def storeAfterFirst : List Website :=
  [mkWebsite "u1" "My Site" "example.com" "https://Example.com/path?x=1" 5]

/-- An in-flight registration of `example.com` by owner `u1`, for the
interleaving analysis. -/
def raceThread : RegThread :=
  ⟨"u1", "My Site", "example.com", "https://example.com", 5⟩

/-- Like `sampleEnv` but authenticated as a second owner `u2`. -/
def envOwner2 : Env :=
  { sampleEnv with getAuth := fun _ => some "u2" }

/-- Like `sampleEnv` but the credential fails extraction. -/
def noTokenEnv : Env :=
  { sampleEnv with tokenAuth := none }

/-- Like `sampleEnv` but the clock format/parse round trip fails. -/
def badClockEnv : Env :=
  { sampleEnv with parseTime := fun _ => none }

/-! ## Helper lemmas -/

theorem hash_inj (a b : String) (hab : Hash a = Hash b) : a = b := by
  cases a with
  | mk da =>
    cases b with
    | mk db =>
      have h2 : ('s' :: 'h' :: 'a' :: ':' :: da) = ('s' :: 'h' :: 'a' :: ':' :: db) :=
        congrArg String.data hab
      have h3 : da = db := by simpa using h2
      exact congrArg String.mk h3

theorem findWebsite_append (store : List Website) (w : Website) (u h : String) :
    FindWebsite (store ++ [w]) u h =
      FindWebsite store u h + (if w.userID == u && w.hostName == h then 1 else 0) := by
  unfold FindWebsite
  rw [List.filter_append, List.length_append]
  simp only [List.filter_cons, List.filter_nil]
  split <;> simp

theorem addWebsite_ok_inserted (env : Env) (req : RequestWebsite) (store store2 : List Website)
    (r : Response) (hrun : AddWebsite env req store = (some r, store2)) (hok : r.status = .ok) :
    ∃ (h u a : String) (t : Nat),
      validateRequest req = true ∧
      ParseURL req.url = some h ∧
      env.tokenAuth = some a ∧
      env.getAuth a = some u ∧
      env.findFails = false ∧
      FindWebsite store u h = 0 ∧
      env.parseTime (formatTime env.now) = some t ∧
      store2 = store ++ [mkWebsite u req.name h req.url t] := by
  unfold AddWebsite at hrun
  split at hrun
  · obtain ⟨hr, _⟩ := Prod.mk.injEq .. ▸ hrun
    cases Option.some.inj hr
    simp at hok
  · next hval =>
    split at hrun
    · obtain ⟨hr, _⟩ := Prod.mk.injEq .. ▸ hrun
      cases Option.some.inj hr
      simp at hok
    · next hostName hurl =>
      split at hrun
      · obtain ⟨hr, _⟩ := Prod.mk.injEq .. ▸ hrun
        cases Option.some.inj hr
        simp at hok
      · next a htok =>
        split at hrun
        · obtain ⟨hr, _⟩ := Prod.mk.injEq .. ▸ hrun
          cases Option.some.inj hr
          simp at hok
        · next u hget =>
          split at hrun
          · obtain ⟨hr, _⟩ := Prod.mk.injEq .. ▸ hrun
            cases Option.some.inj hr
            simp at hok
          · next hff =>
            split at hrun
            · obtain ⟨hr, _⟩ := Prod.mk.injEq .. ▸ hrun
              cases Option.some.inj hr
              simp at hok
            · next hcount =>
              split at hrun
              · obtain ⟨hr, _⟩ := Prod.mk.injEq .. ▸ hrun
                cases hr
              · next t htime =>
                split at hrun
                · obtain ⟨hr, _⟩ := Prod.mk.injEq .. ▸ hrun
                  cases Option.some.inj hr
                  simp at hok
                · obtain ⟨hr, hs⟩ := Prod.mk.injEq .. ▸ hrun
                  refine ⟨hostName, u, a, t, ?_, hurl, htok, hget, ?_, ?_, htime, hs.symm⟩
                  · simpa using hval
                  · simpa using hff
                  · omega

theorem addWebsite_conflict (env : Env) (req : RequestWebsite) (store : List Website)
    (h u a : String)
    (hval : validateRequest req = true)
    (hurl : ParseURL req.url = some h)
    (htok : env.tokenAuth = some a)
    (hget : env.getAuth a = some u)
    (hff : env.findFails = false)
    (hcount : 0 < FindWebsite store u h) :
    AddWebsite env req store = (some ⟨.conflict, "this website already exists"⟩, store) := by
  unfold AddWebsite
  simp [hval, hurl, htok, hget, hff, hcount]

theorem addWebsite_inserted_eq (env : Env) (req : RequestWebsite)
    (store store2 : List Website) (r : Response) (w : Website)
    (hrun : AddWebsite env req store = (some r, store2)) (hok : r.status = .ok)
    (hw : store2 = store ++ [w]) :
    w.id = Hash w.hostName ∧ w.name = req.name ∧ w.url = req.url := by
  obtain ⟨h, u, a, t, _, _, _, _, _, _, _, hstore⟩ :=
    addWebsite_ok_inserted env req store store2 r hrun hok
  rw [hw] at hstore
  have hweq : w = mkWebsite u req.name h req.url t := by
    have := List.append_cancel_left hstore
    simpa using this
  subst hweq
  exact ⟨rfl, rfl, rfl⟩

theorem dropSchemeAux_concat (s tail : List Char) (hs : ∀ c ∈ s, c ≠ ':') :
    dropSchemeAux (s ++ ':' :: '/' :: '/' :: tail) = some tail := by
  induction s with
  | nil => simp [dropSchemeAux]
  | cons c cs ih =>
    have hc : c ≠ ':' := hs c (List.mem_cons_self c cs)
    have ih2 := ih (fun x hx => hs x (List.mem_cons_of_mem c hx))
    simp only [List.cons_append, dropSchemeAux, hc, false_and, if_false]
    exact ih2

theorem takeWhile_host_append (h p : List Char)
    (hh : ∀ c ∈ h, isHostChar c = true)
    (hp : p = [] ∨ ∃ c r, p = c :: r ∧ isHostChar c = false) :
    (h ++ p).takeWhile isHostChar = h := by
  induction h with
  | nil =>
    rcases hp with hp | ⟨c, r, hp, hc⟩
    · simp [hp]
    · simp [hp, List.takeWhile_cons, hc]
  | cons c cs ih =>
    have hc : isHostChar c = true := hh c (List.mem_cons_self c cs)
    have ih2 := ih (fun x hx => hh x (List.mem_cons_of_mem c hx))
    simp [List.takeWhile_cons, hc, ih2]

theorem parseURL_mkURL (s h p : List Char)
    (hs : ∀ c ∈ s, c ≠ ':')
    (hh : ∀ c ∈ h, isHostChar c = true)
    (hne : h ≠ [])
    (hp : p = [] ∨ ∃ c r, p = c :: r ∧ isHostChar c = false) :
    ParseURL (mkURL s h p) = some (String.mk (h.map Char.toLower)) := by
  have hdata : (mkURL s h p).data = s ++ ':' :: '/' :: '/' :: (h ++ p) := rfl
  unfold ParseURL canonHostChars dropScheme
  rw [hdata, dropSchemeAux_concat s (h ++ p) hs]
  simp only [Option.getD_some]
  rw [takeWhile_host_append h p hh hp]
  cases h with
  | nil => exact absurd rfl hne
  | cons c cs => simp [List.isEmpty]

/-! ## Claim theorems -/

/-- Claim C1 (code-bug evidence): `AddWebsite` runs the dedup lookup and
the insert as two separate store calls with no atomic guard, so under the
interleaved schedule find-find-insert-insert two invocations with the same
`(owner, canonical_host)` both report success and leave two duplicate
records in the store, violating the exactly-one-creation property; only
the fully sequential schedule produces one creation and one conflict. -/
theorem addWebsite_check_then_insert_race :
    (runSchedule raceThread raceThread [true, false, true, false] .atFind .atFind [] =
      (.finished .ok, .finished .ok,
       [mkWebsite "u1" "My Site" "example.com" "https://example.com" 5,
        mkWebsite "u1" "My Site" "example.com" "https://example.com" 5])) ∧
    (FindWebsite (runSchedule raceThread raceThread [true, false, true, false]
        .atFind .atFind []).2.2 "u1" "example.com" = 2) ∧
    (runSchedule raceThread raceThread [true, true, false, false] .atFind .atFind [] =
      (.finished .ok, .finished .conflict,
       [mkWebsite "u1" "My Site" "example.com" "https://example.com" 5])) :=
  ⟨rfl, rfl, rfl⟩

/-- Claim C2: after a successful registration, a second registration by
the same owner of any URL canonicalizing to the same host fails with the
AlreadyExists conflict response, performs no write, and leaves the store
from the first registration unchanged. -/
theorem addWebsite_second_registration_conflict
    (env1 env2 : Env) (req1 req2 : RequestWebsite) (store store1 : List Website)
    (r1 : Response) (a1 a2 u : String)
    (hrun1 : AddWebsite env1 req1 store = (some r1, store1))
    (hok : r1.status = .ok)
    (htok1 : env1.tokenAuth = some a1) (hget1 : env1.getAuth a1 = some u)
    (htok2 : env2.tokenAuth = some a2) (hget2 : env2.getAuth a2 = some u)
    (hff2 : env2.findFails = false)
    (hval2 : validateRequest req2 = true)
    (hsamehost : ParseURL req2.url = ParseURL req1.url) :
    AddWebsite env2 req2 store1 =
      (some ⟨.conflict, "this website already exists"⟩, store1) := by
  obtain ⟨h, u', a', t, hval1, hurl1, htok1a, hget1a, hff1, hcount, htime, hstore⟩ :=
    addWebsite_ok_inserted env1 req1 store store1 r1 hrun1 hok
  have hau : a' = a1 := by
    rw [htok1] at htok1a
    exact (Option.some.inj htok1a).symm
  rw [hau] at hget1a
  have huu : u' = u := by
    rw [hget1] at hget1a
    exact (Option.some.inj hget1a).symm
  rw [huu] at hstore
  apply addWebsite_conflict env2 req2 store1 h u a2 hval2 (hsamehost.trans hurl1)
    htok2 hget2 hff2
  rw [hstore, findWebsite_append]
  simp [mkWebsite]

/-- Witness for claim C2: `u1` registers `https://Example.com/path?x=1`,
then `http://EXAMPLE.COM/` is rejected as a conflict with the store
unchanged. -/
theorem addWebsite_second_registration_conflict_witness :
    AddWebsite sampleEnv ⟨"dup", "http://EXAMPLE.COM/"⟩ storeAfterFirst =
      (some ⟨.conflict, "this website already exists"⟩, storeAfterFirst) :=
  addWebsite_second_registration_conflict sampleEnv sampleEnv
    ⟨"My Site", "https://Example.com/path?x=1"⟩ ⟨"dup", "http://EXAMPLE.COM/"⟩
    [] storeAfterFirst ⟨.ok, "website"⟩ "access-uuid" "access-uuid" "u1"
    (by decide) rfl rfl rfl rfl rfl rfl (by decide) (by decide)

/-- Claim C3: the resource identifier of a freshly registered site is a
deterministic pure function of the canonical host alone — two successful
registrations of the same canonical host by any two owners receive equal
identifiers — and in the idealized digest model distinct hosts always
receive distinct identifiers. -/
theorem websiteID_pure_function_of_host
    (env1 env2 : Env) (req1 req2 : RequestWebsite)
    (s1 s2 : List Website) (r1 r2 : Response) (w1 w2 : Website)
    (hrun1 : AddWebsite env1 req1 s1 = (some r1, s1 ++ [w1])) (hok1 : r1.status = .ok)
    (hrun2 : AddWebsite env2 req2 s2 = (some r2, s2 ++ [w2])) (hok2 : r2.status = .ok)
    (hhost : w1.hostName = w2.hostName) :
    w1.id = w2.id ∧ (∀ host : String, Hash host = Hash host) ∧
    (∀ hostA hostB : String, Hash hostA = Hash hostB → hostA = hostB) := by
  obtain ⟨hid1, -, -⟩ := addWebsite_inserted_eq env1 req1 s1 _ r1 w1 hrun1 hok1 rfl
  obtain ⟨hid2, -, -⟩ := addWebsite_inserted_eq env2 req2 s2 _ r2 w2 hrun2 hok2 rfl
  refine ⟨?_, fun _ => rfl, hash_inj⟩
  rw [hid1, hid2, hhost]

/-- Witness for claim C3: owners `u1` and `u2` registering
`example.com` via different raw URLs obtain the same identifier. -/
theorem websiteID_pure_function_of_host_witness :
    (mkWebsite "u1" "My Site" "example.com" "https://Example.com/path?x=1" 5).id =
      (mkWebsite "u2" "Other Site" "example.com" "http://example.com" 5).id ∧
    (∀ host : String, Hash host = Hash host) ∧
    (∀ hostA hostB : String, Hash hostA = Hash hostB → hostA = hostB) :=
  websiteID_pure_function_of_host sampleEnv envOwner2
    ⟨"My Site", "https://Example.com/path?x=1"⟩ ⟨"Other Site", "http://example.com"⟩
    [] [] ⟨.ok, "website"⟩ ⟨.ok, "website"⟩
    (mkWebsite "u1" "My Site" "example.com" "https://Example.com/path?x=1" 5)
    (mkWebsite "u2" "Other Site" "example.com" "http://example.com" 5)
    (by decide) rfl (by decide) rfl rfl

/-- Claim C4: canonicalization is total and deterministic, and two URLs
that differ only in scheme, path or query, or letter case of the host
yield the same canonical host. -/
theorem parseURL_total_deterministic_canonical
    (s1 s2 h1 h2 p1 p2 : List Char)
    (hs1 : ∀ c ∈ s1, c ≠ ':') (hs2 : ∀ c ∈ s2, c ≠ ':')
    (hh1 : ∀ c ∈ h1, isHostChar c = true) (hh2 : ∀ c ∈ h2, isHostChar c = true)
    (hne : h1 ≠ [])
    (hp1 : p1 = [] ∨ ∃ c r, p1 = c :: r ∧ isHostChar c = false)
    (hp2 : p2 = [] ∨ ∃ c r, p2 = c :: r ∧ isHostChar c = false)
    (hcase : h1.map Char.toLower = h2.map Char.toLower) :
    (∀ u : String, ParseURL u = ParseURL u) ∧
    ParseURL (mkURL s1 h1 p1) = ParseURL (mkURL s2 h2 p2) ∧
    ∃ host, ParseURL (mkURL s1 h1 p1) = some host := by
  have hne2 : h2 ≠ [] := by
    intro hh
    rw [hh, List.map_nil, List.map_eq_nil_iff] at hcase
    exact hne hcase
  have e1 := parseURL_mkURL s1 h1 p1 hs1 hh1 hne hp1
  have e2 := parseURL_mkURL s2 h2 p2 hs2 hh2 hne2 hp2
  refine ⟨fun _ => rfl, ?_, _, e1⟩
  rw [e1, e2, hcase]

/-- Witness for claim C4: `https://Example.com/path?x=1` and
`http://EXAMPLE.COM/` canonicalize to the same host. -/
theorem parseURL_total_deterministic_canonical_witness :
    (∀ u : String, ParseURL u = ParseURL u) ∧
    ParseURL (mkURL "https".data "Example.com".data "/path?x=1".data) =
      ParseURL (mkURL "http".data "EXAMPLE.COM".data "/".data) ∧
    ∃ host, ParseURL (mkURL "https".data "Example.com".data "/path?x=1".data) = some host :=
  parseURL_total_deterministic_canonical
    "https".data "http".data "Example.com".data "EXAMPLE.COM".data
    "/path?x=1".data "/".data
    (by decide) (by decide) (by decide) (by decide) (by decide)
    (Or.inr ⟨'/', "path?x=1".data, rfl, by decide⟩)
    (Or.inr ⟨'/', [], rfl, by decide⟩)
    (by decide)

/-- Claim C5: every freshly created record has `tracked = false` and
`created_at = updated_at`, both timestamps coming from the single clock
value captured once before the record is built. -/
theorem addWebsite_fresh_record_timestamps
    (env : Env) (req : RequestWebsite) (store store2 : List Website) (r : Response)
    (hrun : AddWebsite env req store = (some r, store2)) (hok : r.status = .ok) :
    ∃ w : Website, store2 = store ++ [w] ∧ w.tracked = false ∧
      w.createdAt = w.updatedAt ∧
      env.parseTime (formatTime env.now) = some w.createdAt := by
  obtain ⟨h, u, a, t, _, _, _, _, _, _, htime, hstore⟩ :=
    addWebsite_ok_inserted env req store store2 r hrun hok
  exact ⟨_, hstore, rfl, rfl, htime⟩

/-- Witness for claim C5 at a concrete successful registration. -/
theorem addWebsite_fresh_record_timestamps_witness :
    ∃ w : Website, storeAfterFirst = [] ++ [w] ∧ w.tracked = false ∧
      w.createdAt = w.updatedAt ∧
      sampleEnv.parseTime (formatTime sampleEnv.now) = some w.createdAt :=
  addWebsite_fresh_record_timestamps sampleEnv
    ⟨"My Site", "https://Example.com/path?x=1"⟩ [] storeAfterFirst
    ⟨.ok, "website"⟩ (by decide) rfl

/-- Claim C6 counterexample: a registration whose URL has no parseable
host is answered with the generic 500 internal-error response — the very
status class the handler also uses for a storage failure — so the failure
is not classified as a distinct bad-input failure as the claim states. -/
theorem addWebsite_invalid_url_counterexample :
    (AddWebsite sampleEnv ⟨"My Site", "///"⟩ []).1 =
      some ⟨.internalError, "error occured while parse url the website"⟩ ∧
    (AddWebsite { sampleEnv with findFails := true }
        ⟨"My Site", "https://example.com"⟩ []).1 =
      some ⟨.internalError, "error occured while check for the email"⟩ ∧
    HStatus.internalError ≠ HStatus.badRequest :=
  ⟨rfl, rfl, by decide⟩

/-- Claim C6 amended: for every raw_url with no parseable host (once the
payload passes shape validation), register fails and performs no write,
but the failure is surfaced as a generic internal error — the same status
class used for storage failures — rather than as a distinct bad-input
failure. -/
theorem addWebsite_invalid_url_internal_error
    (env : Env) (req : RequestWebsite) (store : List Website)
    (hval : validateRequest req = true)
    (hurl : ParseURL req.url = none) :
    AddWebsite env req store =
      (some ⟨.internalError, "error occured while parse url the website"⟩, store) := by
  unfold AddWebsite
  simp [hval, hurl]

/-- Witness for the amended claim C6 at the host-less URL `?x=1`. -/
theorem addWebsite_invalid_url_internal_error_witness :
    AddWebsite sampleEnv ⟨"My Site", "?x=1"⟩ [] =
      (some ⟨.internalError, "error occured while parse url the website"⟩, []) :=
  addWebsite_invalid_url_internal_error sampleEnv ⟨"My Site", "?x=1"⟩ []
    (by decide) (by decide)

/-- Claim C7 counterexample: a lookup of an identifier owned by another
owner is answered with the generic 500 internal-error response, not with
NotFound as the claim states. -/
theorem getWebsite_unowned_counterexample :
    GetWebsite envOwnerA [siteOwnerB] (Hash "example.com") =
      ⟨.internalError, "error occured while get the website by id"⟩ ∧
    HStatus.internalError ≠ HStatus.notFound :=
  ⟨rfl, by decide⟩

/-- Claim C7 amended: a lookup of an identifier not owned by the caller
fails exactly like a lookup of a missing identifier — the same response,
and never Forbidden, so existence does not leak across owners — but the
response is the generic 500 internal error rather than NotFound. -/
theorem getWebsite_unowned_indistinguishable
    (env : Env) (store : List Website) (websiteID a u : String)
    (htok : env.tokenAuth = some a) (hget : env.getAuth a = some u)
    (hunowned : ∀ w ∈ store, w.id = websiteID → w.userID ≠ u) :
    GetWebsite env store websiteID =
      ⟨.internalError, "error occured while get the website by id"⟩ ∧
    GetWebsite env store websiteID = GetWebsite env [] websiteID ∧
    (GetWebsite env store websiteID).status ≠ .forbidden := by
  have huc : GetWebsiteUC store u websiteID = none := by
    rw [GetWebsiteUC, List.find?_eq_none]
    intro w hw
    simp only [Bool.and_eq_true, beq_iff_eq, not_and]
    intro hu hid
    exact hunowned w hw hid hu
  have hbase : GetWebsite env store websiteID =
      ⟨.internalError, "error occured while get the website by id"⟩ := by
    unfold GetWebsite
    simp [htok, hget, huc]
  have hmiss : GetWebsite env [] websiteID =
      ⟨.internalError, "error occured while get the website by id"⟩ := by
    unfold GetWebsite
    simp [htok, hget, GetWebsiteUC]
  refine ⟨hbase, hbase.trans hmiss.symm, ?_⟩
  rw [hbase]
  decide

/-- Witness for the amended claim C7: `ownerA` looks up `ownerB`'s
record. -/
theorem getWebsite_unowned_indistinguishable_witness :
    GetWebsite envOwnerA [siteOwnerB] (Hash "example.com") =
      ⟨.internalError, "error occured while get the website by id"⟩ ∧
    GetWebsite envOwnerA [siteOwnerB] (Hash "example.com") =
      GetWebsite envOwnerA [] (Hash "example.com") ∧
    (GetWebsite envOwnerA [siteOwnerB] (Hash "example.com")).status ≠ .forbidden :=
  getWebsite_unowned_indistinguishable envOwnerA [siteOwnerB] (Hash "example.com")
    "tokA" "ownerA" rfl rfl (by decide)

/-- Claim C8: a registration request whose credential fails extraction,
or whose credential has no matching live session, is answered with the
unauthorized outcome — never a generic internal error — and resolution
mutates nothing: the store is returned unchanged. -/
theorem addWebsite_unauthenticated_no_mutation
    (env : Env) (req : RequestWebsite) (store : List Website) (h : String)
    (hval : validateRequest req = true)
    (hurl : ParseURL req.url = some h)
    (hauth : env.tokenAuth = none ∨ ∃ a, env.tokenAuth = some a ∧ env.getAuth a = none) :
    ∃ r : Response, AddWebsite env req store = (some r, store) ∧
      r.status = .unauthorized ∧ r.status ≠ .internalError := by
  rcases hauth with htok | ⟨a, htok, hget⟩
  · refine ⟨⟨.unauthorized, "extract token metadata failed"⟩, ?_, rfl, by decide⟩
    unfold AddWebsite
    simp [hval, hurl, htok]
  · refine ⟨⟨.unauthorized, "get token auth failed"⟩, ?_, rfl, by decide⟩
    unfold AddWebsite
    simp [hval, hurl, htok, hget]

/-- Witness for claim C8: an absent credential on a well-formed
registration request. -/
theorem addWebsite_unauthenticated_no_mutation_witness :
    ∃ r : Response,
      AddWebsite noTokenEnv ⟨"My Site", "https://example.com"⟩ [] = (some r, []) ∧
      r.status = .unauthorized ∧ r.status ≠ .internalError :=
  addWebsite_unauthenticated_no_mutation noTokenEnv
    ⟨"My Site", "https://example.com"⟩ [] "example.com"
    (by decide) (by decide) (Or.inl rfl)

/-- Claim C9: a payload whose name is shorter than 2 or longer than 100
characters, or whose URL is shorter than 3 characters, is rejected as a
bad request with the store untouched, and the response is the same for
every authentication environment and store — so no canonicalization,
authentication or store access influences the outcome. -/
theorem addWebsite_validation_first
    (env env2 : Env) (req : RequestWebsite) (store store2 : List Website)
    (hbad : req.name.length < 2 ∨ 100 < req.name.length ∨ req.url.length < 3) :
    AddWebsite env req store = (some ⟨.badRequest, "validation error"⟩, store) ∧
    (AddWebsite env req store).1 = (AddWebsite env2 req store2).1 := by
  have hval : validateRequest req = false := by
    rw [Bool.eq_false_iff]
    intro hv
    unfold validateRequest at hv
    simp only [Bool.and_eq_true, decide_eq_true_eq] at hv
    omega
  constructor
  · unfold AddWebsite
    simp [hval]
  · unfold AddWebsite
    simp [hval]

/-- Witness for claim C9: a one-character name is rejected identically
under two different environments and stores. -/
theorem addWebsite_validation_first_witness :
    AddWebsite sampleEnv ⟨"x", "https://example.com"⟩ [] =
      (some ⟨.badRequest, "validation error"⟩, []) ∧
    (AddWebsite sampleEnv ⟨"x", "https://example.com"⟩ []).1 =
      (AddWebsite noTokenEnv ⟨"x", "https://example.com"⟩ [siteOwnerB]).1 :=
  addWebsite_validation_first sampleEnv noTokenEnv
    ⟨"x", "https://example.com"⟩ [] [siteOwnerB] (Or.inl (by decide))

/-- Claim C10: when the creation-timestamp derivation fails, the handler
returns without inserting any record and without writing any response —
the request produces no observable result. -/
theorem addWebsite_time_parse_failure_silent
    (env : Env) (req : RequestWebsite) (store : List Website) (h a u : String)
    (hval : validateRequest req = true)
    (hurl : ParseURL req.url = some h)
    (htok : env.tokenAuth = some a)
    (hget : env.getAuth a = some u)
    (hff : env.findFails = false)
    (hcount : FindWebsite store u h = 0)
    (htime : env.parseTime (formatTime env.now) = none) :
    AddWebsite env req store = (none, store) := by
  unfold AddWebsite
  simp [hval, hurl, htok, hget, hff, hcount, htime]

/-- Witness for claim C10: an environment whose clock round trip fails. -/
theorem addWebsite_time_parse_failure_silent_witness :
    AddWebsite badClockEnv ⟨"My Site", "https://example.com"⟩ [] = (none, []) :=
  addWebsite_time_parse_failure_silent badClockEnv
    ⟨"My Site", "https://example.com"⟩ [] "example.com" "access-uuid" "u1"
    (by decide) (by decide) rfl rfl rfl rfl rfl

end Analytics
